import Mathlib

/-!
# Verification of the student-performance scoring / profiling / recommendation core

A shallow embedding of the repository's core pipeline:

* `src/scoring.py`   — `load_raw_answers`, `compute_student_topic_scores`,
  `compute_student_overall_summary`, `compute_student_topic_error_shares`,
  `run_scoring_pipeline` (the pure, in-memory part; CSV reading/writing is I/O
  and stays outside the embedding, the column check of `load_raw_answers` is kept).
* `src/profiling.py` — `_accuracy_to_level`, `_label_topic`, `build_student_profile`.
* `src/recommendations.py` — `_top_error_types_for_topic`, `generate_recommendations`.
* `src/config.py`    — the thresholds and level bands.

Modelling conventions:

* A pandas `DataFrame` becomes a `List` of records, one structure per table shape.
  Grouping (`groupby`) is embedded as: the list of distinct keys in first-appearance
  order, each paired with the filter of the rows matching it.  pandas sorts group
  keys lexicographically in its output; no property below depends on the row order
  of the aggregated tables, so first-appearance order is used for the key list.
* Python numbers (`float`) become `ℚ` and `round(x, d)` becomes exact half-even
  rounding of a rational to `d` decimal digits (`roundTo`), which is what Python's
  `round` computes up to binary floating-point representation noise.
* Python exceptions become `Except String`: `raise ValueError(msg)` is
  `Except.error msg`.  (`profiling.py` raises `ValueError` where the spec's
  taxonomy says `NotFoundError`; `scoring.py`'s column check raises `ValueError`
  where the taxonomy says `SchemaError` — same event, different name.)
* Python's `list.sort` / `sorted` are stable; they are embedded as Mathlib's
  `List.insertionSort`, which is stable in the same sense.  `DataFrame.sort_values`
  (used for `sub_scores` and the error-share ordering) is *not* guaranteed stable
  by pandas; the embedding fixes the stable order, and no claim below depends on
  the order of exact ties in those two sorts.
-/

/-- The floor of a rational, written so that it evaluates by kernel reduction
(`Int.fdiv` is floor division). -/
def ratFloor (q : ℚ) : ℤ := Int.fdiv q.num (q.den : ℤ)

/-- Half-even ("banker's") rounding of a rational to an integer: the rule Python's
`round` implements. -/
def roundHalfEven (q : ℚ) : ℤ :=
  let n : ℤ := ratFloor q
  let frac : ℚ := q - n
  if frac < 1/2 then n
  else if 1/2 < frac then n + 1
  else if n % 2 = 0 then n else n + 1

/-- Python's `round(q, d)`: round to `d` decimal digits, ties to even. -/
def roundTo (d : ℕ) (q : ℚ) : ℚ :=
  (roundHalfEven (q * 10 ^ d) : ℚ) / 10 ^ d

/-! ## Data model (`scoring.py` input and output tables) -/

/-- One row of `data/raw/student_answers.csv`: a single attempt at one question. -/
structure Attempt where
  student_id : String
  test_id : String
  question_id : String
  topic : String
  subskill : String
  difficulty : ℚ
  correct_answer : ℚ
  answer_given : ℚ
  is_correct : Bool
  error_type : String
  time_seconds : ℚ
  confidence : ℚ
deriving DecidableEq, Repr

/-- One row of `student_topic_scores.csv` (output of `compute_student_topic_scores`). -/
structure TopicScore where
  student_id : String
  topic : String
  topic_n_questions : ℕ
  topic_accuracy : ℚ
  topic_avg_time_seconds : ℚ
  topic_avg_confidence : ℚ
deriving DecidableEq, Repr

/-- One row of `student_overall_summary.csv` (output of `compute_student_overall_summary`). -/
structure OverallRow where
  student_id : String
  overall_n_questions : ℕ
  overall_accuracy : ℚ
  overall_avg_time_seconds : ℚ
  overall_avg_confidence : ℚ
deriving DecidableEq, Repr

/-- One row of `student_topic_error_matrix.csv` (long format, output of
`compute_student_topic_error_shares`). -/
structure ErrorShareRow where
  student_id : String
  topic : String
  error_type : String
  error_share : ℚ
deriving DecidableEq, Repr

/-! ## `config.py` -/

def STRENGTH_ACCURACY_THRESHOLD : ℚ := 80/100

def WEAKNESS_ACCURACY_THRESHOLD : ℚ := 55/100

/-- `config.LEVEL_BANDS`, a Python dict iterated in insertion order: embedded as
the ordered association list `(level, (lo, hi))`. -/
def LEVEL_BANDS : List (String × ℚ × ℚ) :=
  [("beginner", 0, 50/100),
   ("intermediate", 50/100, 75/100),
   ("advanced", 75/100, 101/100)]

/-! ## `scoring.py` -/

/-- The column set `load_raw_answers` requires. -/
def REQUIRED_ANSWER_COLUMNS : List String :=
  ["student_id", "test_id", "question_id", "topic", "subskill", "difficulty",
   "correct_answer", "answer_given", "is_correct", "error_type", "time_seconds",
   "confidence"]

/-- A raw CSV as loaded: its header (column names) and its typed rows.  The typed
rows stand for the cells of the columns the embedding uses; the schema check of
`load_raw_answers` is about `columns`. -/
structure RawAnswersTable where
  columns : List String
  rows : List Attempt
deriving Repr

/-- `load_raw_answers`: check the required columns are present, else
`raise ValueError` (the spec's `SchemaError`).  The CSV parsing itself is I/O
and outside the embedding. -/
def load_raw_answers (t : RawAnswersTable) : Except String (List Attempt) :=
  let missing := REQUIRED_ANSWER_COLUMNS.filter (fun c => !(t.columns.contains c))
  if missing.isEmpty then Except.ok t.rows
  else Except.error ("student_answers.csv manca colonne: " ++ toString missing)

/-- The group of `rows` for one `(student_id, topic)` key. -/
def groupST (sid t : String) (rows : List Attempt) : List Attempt :=
  rows.filter (fun a => a.student_id == sid && a.topic == t)

/-- The group of `rows` for one `student_id` key. -/
def groupS (sid : String) (rows : List Attempt) : List Attempt :=
  rows.filter (fun a => a.student_id == sid)

/-- The group of `rows` for one `(student_id, topic, error_type)` key. -/
def groupSTE (sid t e : String) (rows : List Attempt) : List Attempt :=
  rows.filter (fun a => a.student_id == sid && a.topic == t && a.error_type == e)

/-- The distinct `(student_id, topic)` keys of the table (`groupby` keys). -/
def stKeys (rows : List Attempt) : List (String × String) :=
  (rows.map (fun a => (a.student_id, a.topic))).dedup

/-- The distinct `student_id` keys of the table. -/
def sKeys (rows : List Attempt) : List String :=
  (rows.map (fun a => a.student_id)).dedup

/-- The distinct `(student_id, topic, error_type)` keys of the table. -/
def steKeys (rows : List Attempt) : List (String × String × String) :=
  (rows.map (fun a => (a.student_id, a.topic, a.error_type))).dedup

/-- `mean(is_correct)` over a group, before rounding. -/
def rawAccuracy (g : List Attempt) : ℚ :=
  ((g.countP (fun a => a.is_correct)) : ℚ) / (g.length : ℚ)

/-- `mean(time_seconds)` over a group, before rounding. -/
def rawMeanTime (g : List Attempt) : ℚ :=
  ((g.map (fun a => a.time_seconds)).sum) / (g.length : ℚ)

/-- `mean(confidence)` over a group, before rounding. -/
def rawMeanConfidence (g : List Attempt) : ℚ :=
  ((g.map (fun a => a.confidence)).sum) / (g.length : ℚ)

/-- `compute_student_topic_scores`: per-(student, topic) count and means, with the
source's display rounding (4 decimals for accuracy, 2 for time and confidence). -/
def compute_student_topic_scores (answers_df : List Attempt) : List TopicScore :=
  (stKeys answers_df).map (fun k =>
    let g := groupST k.1 k.2 answers_df
    { student_id := k.1
      topic := k.2
      topic_n_questions := g.length
      topic_accuracy := roundTo 4 (rawAccuracy g)
      topic_avg_time_seconds := roundTo 2 (rawMeanTime g)
      topic_avg_confidence := roundTo 2 (rawMeanConfidence g) })

/-- `compute_student_overall_summary`: per-student count and means, rounded as in
the source. -/
def compute_student_overall_summary (answers_df : List Attempt) : List OverallRow :=
  (sKeys answers_df).map (fun sid =>
    let g := groupS sid answers_df
    { student_id := sid
      overall_n_questions := g.length
      overall_accuracy := roundTo 4 (rawAccuracy g)
      overall_avg_time_seconds := roundTo 2 (rawMeanTime g)
      overall_avg_confidence := roundTo 2 (rawMeanConfidence g) })

/-- The `total_n` of the source's `totals` frame: the sum of the per-error-type
counts of one `(student_id, topic)` pair (the source computes it by summing the
`counts` frame over the pair, exactly as here). -/
def totalForPair (rows : List Attempt) (sid t : String) : ℕ :=
  (((steKeys rows).filter (fun k => k.1 == sid && k.2.1 == t)).map
    (fun k => (groupSTE k.1 k.2.1 k.2.2 rows).length)).sum

/-- `compute_student_topic_error_shares`: long-format error distribution,
`error_share = round(n / total_n, 4)`. -/
def compute_student_topic_error_shares (answers_df : List Attempt) : List ErrorShareRow :=
  (steKeys answers_df).map (fun k =>
    { student_id := k.1
      topic := k.2.1
      error_type := k.2.2
      error_share :=
        roundTo 4 (((groupSTE k.1 k.2.1 k.2.2 answers_df).length : ℚ) /
          (totalForPair answers_df k.1 k.2.1 : ℚ)) })

/-- The pure part of `run_scoring_pipeline`: load (schema check) then the three
aggregations.  Directory creation and CSV writing are I/O and outside the
embedding; an error of `load_raw_answers` propagates before any aggregation runs. -/
def run_scoring_pipeline (t : RawAnswersTable) :
    Except String (List TopicScore × List OverallRow × List ErrorShareRow) :=
  (load_raw_answers t).map (fun answers_df =>
    (compute_student_topic_scores answers_df,
     compute_student_overall_summary answers_df,
     compute_student_topic_error_shares answers_df))

/-! ## `profiling.py` -/

/-- `profiling.TopicProfile`. -/
structure TopicProfile where
  topic : String
  accuracy : ℚ
  avg_time_seconds : ℚ
  n_questions : ℕ
  level : String
  label : String
deriving DecidableEq, Repr

/-- `profiling.StudentProfile`. -/
structure StudentProfile where
  student_id : String
  overall_accuracy : ℚ
  overall_avg_time_seconds : ℚ
  overall_n_questions : ℕ
  overall_level : String
  strengths : List TopicProfile
  weaknesses : List TopicProfile
  neutrals : List TopicProfile
deriving DecidableEq, Repr

/-- `_accuracy_to_level`'s loop over an arbitrary band table: first band
`(level, (lo, hi))` with `lo ≤ acc < hi` wins; an exhausted table falls back to
`"intermediate"`. -/
def accuracy_to_level_with : List (String × ℚ × ℚ) → ℚ → String
  | [], _ => "intermediate"
  | (level, lo, hi) :: rest, acc =>
    if lo ≤ acc ∧ acc < hi then level else accuracy_to_level_with rest acc

/-- `_accuracy_to_level`: the loop over `config.LEVEL_BANDS`. -/
def accuracy_to_level (acc : ℚ) : String :=
  accuracy_to_level_with LEVEL_BANDS acc

/-- `_label_topic`: strength / weakness / neutral by the configured thresholds. -/
def label_topic (acc : ℚ) : String :=
  if STRENGTH_ACCURACY_THRESHOLD ≤ acc then "strength"
  else if acc ≤ WEAKNESS_ACCURACY_THRESHOLD then "weakness"
  else "neutral"

/-- Ascending accuracy on `TopicProfile` (the `weaknesses.sort(key accuracy)`). -/
def tpAccLE (a b : TopicProfile) : Prop := a.accuracy ≤ b.accuracy

instance : DecidableRel tpAccLE := fun a b =>
  inferInstanceAs (Decidable (a.accuracy ≤ b.accuracy))

instance : IsTotal TopicProfile tpAccLE := ⟨fun a b => le_total a.accuracy b.accuracy⟩

instance : IsTrans TopicProfile tpAccLE := ⟨fun _ _ _ => le_trans⟩

/-- Descending accuracy on `TopicProfile` (the `reverse=True` sorts; Python's
stable sort with `reverse=True` keeps the original order of equal keys, as
`insertionSort` with this non-strict relation does). -/
def tpAccGE (a b : TopicProfile) : Prop := b.accuracy ≤ a.accuracy

instance : DecidableRel tpAccGE := fun a b =>
  inferInstanceAs (Decidable (b.accuracy ≤ a.accuracy))

instance : IsTotal TopicProfile tpAccGE := ⟨fun a b => le_total b.accuracy a.accuracy⟩

instance : IsTrans TopicProfile tpAccGE := ⟨fun _ _ _ h h' => le_trans h' h⟩

/-- `build_student_profile`: the overall row, the per-topic profiles, the three
label partitions, each sorted as in the source.  `raise ValueError` (the spec's
`NotFoundError`) becomes `Except.error`; the source reads the first matching
overall row (`iloc[0]`), as the head pattern does here. -/
def build_student_profile (student_id : String)
    (student_topic_scores_df : List TopicScore)
    (student_overall_df : List OverallRow) : Except String StudentProfile :=
  match student_overall_df.filter (fun r => r.student_id == student_id) with
  | [] => Except.error ("Student_id non trovato nei dati overall: " ++ student_id)
  | row :: _ =>
    match student_topic_scores_df.filter (fun r => r.student_id == student_id) with
    | [] => Except.error ("Nessun topic score per student_id: " ++ student_id)
    | t0 :: trest =>
      let topic_rows := t0 :: trest
      let topic_profiles : List TopicProfile := topic_rows.map (fun r =>
        { topic := r.topic
          accuracy := r.topic_accuracy
          avg_time_seconds := r.topic_avg_time_seconds
          n_questions := r.topic_n_questions
          level := accuracy_to_level r.topic_accuracy
          label := label_topic r.topic_accuracy })
      Except.ok
        { student_id := student_id
          overall_accuracy := row.overall_accuracy
          overall_avg_time_seconds := row.overall_avg_time_seconds
          overall_n_questions := row.overall_n_questions
          overall_level := accuracy_to_level row.overall_accuracy
          strengths :=
            List.insertionSort tpAccGE (topic_profiles.filter (fun t => t.label == "strength"))
          weaknesses :=
            List.insertionSort tpAccLE (topic_profiles.filter (fun t => t.label == "weakness"))
          neutrals :=
            List.insertionSort tpAccGE (topic_profiles.filter (fun t => t.label == "neutral")) }

/-! ## `recommendations.py` -/

/-- `recommendations.Recommendation`. -/
structure Recommendation where
  title : String
  why : String
  how : List String
  priority : ℕ
deriving DecidableEq, Repr

/-- Descending `error_share` on `ErrorShareRow` (the `sort_values(..., ascending=False)`
of `_top_error_types_for_topic`; pandas does not promise a stable sort there, ties
are "arbitrary but deterministic" — the embedding fixes the stable order). -/
def esShareGE (a b : ErrorShareRow) : Prop := b.error_share ≤ a.error_share

instance : DecidableRel esShareGE := fun a b =>
  inferInstanceAs (Decidable (b.error_share ≤ a.error_share))

instance : IsTotal ErrorShareRow esShareGE := ⟨fun a b => le_total b.error_share a.error_share⟩

instance : IsTrans ErrorShareRow esShareGE := ⟨fun _ _ _ h h' => le_trans h' h⟩

/-- Ascending `topic_accuracy` on `TopicScore` (the `sort_values("topic_accuracy")`
of `generate_recommendations`). -/
def tsAccLE (a b : TopicScore) : Prop := a.topic_accuracy ≤ b.topic_accuracy

instance : DecidableRel tsAccLE := fun a b =>
  inferInstanceAs (Decidable (a.topic_accuracy ≤ b.topic_accuracy))

instance : IsTotal TopicScore tsAccLE := ⟨fun a b => le_total a.topic_accuracy b.topic_accuracy⟩

instance : IsTrans TopicScore tsAccLE := ⟨fun _ _ _ => le_trans⟩

/-- Ascending `priority` on `Recommendation` (the final `recs.sort(key priority)`). -/
def recPrioLE (a b : Recommendation) : Prop := a.priority ≤ b.priority

instance : DecidableRel recPrioLE := fun a b =>
  inferInstanceAs (Decidable (a.priority ≤ b.priority))

instance : IsTotal Recommendation recPrioLE := ⟨fun a b => Nat.le_total a.priority b.priority⟩

instance : IsTrans Recommendation recPrioLE := ⟨fun _ _ _ => Nat.le_trans⟩

/-- `_top_error_types_for_topic`: the pair's rows sorted by share descending,
the first `top_k` of them as `(error_type, share)`. -/
def top_error_types_for_topic (student_id topic : String)
    (student_topic_error_df : List ErrorShareRow) (top_k : ℕ := 2) :
    List (String × ℚ) :=
  let sub := student_topic_error_df.filter
    (fun r => r.student_id == student_id && r.topic == topic)
  if sub.isEmpty then []
  else ((List.insertionSort esShareGE sub).take top_k).map
    (fun r => (r.error_type, r.error_share))

/-- The `if/elif` chain over a (lowercased) error type: the `how` actions it
appends and the priority it contributes.  `"none"` and any unmatched error type
fall through and contribute nothing. -/
def errorActions (err : String) : List String × List ℕ :=
  if err == "segno" then
    (["Scrivi ogni passaggio e fai un check finale sui segni (+/-)",
      "Fai 10 esercizi brevi al giorno SOLO su passaggi di segno"], [1])
  else if err == "algebra" then
    (["Ripassa regole base (distributiva, frazioni, scomposizione)",
      "Esercizi guidati: prima con soluzione, poi senza guardare"], [1])
  else if err == "formula" then
    (["Crea una mini-scheda formule (max 10) e ripetila ogni giorno",
      "Allenati a riconoscere quale formula usare con esempi rapidi"], [2])
  else if err == "concetto" then
    (["Ripasso teoria con 2-3 esempi semplici (poi aumenti difficoltà)",
      "Spiega a voce il concetto in 60 secondi (se non riesci, non è chiaro)"], [1])
  else if err == "distrazione" then
    (["Check finale obbligatorio: unità, segno, ordine di grandezza",
      "Riduci la velocità del 10%: prima zero errori, poi tempo"], [2])
  else ([], [])

/-- The `Dedup suggerimenti` loop: keep the first occurrence of each string. -/
def dedupKeepFirst : List String → List String → List String
  | [], _ => []
  | h :: t, seen =>
    if h ∈ seen then dedupKeepFirst t seen
    else h :: dedupKeepFirst t (h :: seen)

/-- `f"{q:.0%}"`: the rational as a whole percentage. -/
def pctString (q : ℚ) : String := toString (roundHalfEven (q * 100)) ++ "%"

/-- `f"{q:.0f}"`: the rational rounded to a whole number. -/
def intString (q : ℚ) : String := toString (roundHalfEven q)

/-- One iteration of the `for _, r in sub_scores.iterrows()` body: the
recommendation built for one weak-topic score row. -/
def recommendation_for_topic (student_id : String)
    (student_topic_error_df : List ErrorShareRow) (r : TopicScore) : Recommendation :=
  let topic := r.topic
  let acc := r.topic_accuracy
  let avg_time := r.topic_avg_time_seconds
  let top_errors := top_error_types_for_topic student_id topic student_topic_error_df 2
  let why_parts : List String :=
    ["Accuracy " ++ pctString acc]
    ++ (if avg_time > 90 then ["tempo medio alto (" ++ intString avg_time ++ "s)"] else [])
    ++ (if top_errors.isEmpty then []
        else ["errori prevalenti: " ++ String.intercalate ", " (top_errors.map (fun e => e.1))])
  let why := "Nel topic **" ++ topic ++ "**: " ++ String.intercalate "; " why_parts ++ "."
  let how0 := top_errors.flatMap (fun e => (errorActions e.1.toLower).1)
  let priorities0 := top_errors.flatMap (fun e => (errorActions e.1.toLower).2)
  let how1 := if how0.isEmpty then
      ["Risolvi 15 esercizi del topic dal facile al medio, segnando gli errori",
       "Dopo 2 giorni, rifai gli stessi esercizi senza guardare"]
    else how0
  let priorities1 := if how0.isEmpty then priorities0 ++ [2] else priorities0
  let how2 := if avg_time > 120 then
      how1 ++ ["Aggiungi 5 esercizi a tempo (timer 60-90s) per automatizzare"]
    else how1
  let priorities2 := if avg_time > 120 then priorities1 ++ [2] else priorities1
  { title := "Migliora " ++ topic
    why := why
    how := dedupKeepFirst how2 []
    priority := priorities2.min?.getD 2 }

/-- The student's weak-topic score rows, sorted by accuracy ascending (the
`sub_scores` of `generate_recommendations`). -/
def sub_scores_for (student_id : String) (weaknesses : List String)
    (student_topic_scores_df : List TopicScore) : List TopicScore :=
  List.insertionSort tsAccLE
    (student_topic_scores_df.filter
      (fun r => r.student_id == student_id && weaknesses.contains r.topic))

/-- The `for` loop of `generate_recommendations`: appends one recommendation per
weak-topic row and breaks once `max_recommendations` are accumulated (note the
source appends before testing the bound, so even `max_recommendations = 0` yields
one recommendation when a row exists). -/
def recommendations_loop (student_id : String)
    (student_topic_error_df : List ErrorShareRow) (max_recommendations : ℕ) :
    List TopicScore → List Recommendation → List Recommendation
  | [], recs => recs
  | r :: rest, recs =>
    let recs' := recs ++ [recommendation_for_topic student_id student_topic_error_df r]
    if max_recommendations ≤ recs'.length then recs'
    else recommendations_loop student_id student_topic_error_df max_recommendations rest recs'

/-- The recommendation list as accumulated in severity order (worst accuracy
first), before the final priority sort. -/
def recs_in_severity_order (student_id : String) (weaknesses : List String)
    (student_topic_error_df : List ErrorShareRow)
    (student_topic_scores_df : List TopicScore)
    (max_recommendations : ℕ) : List Recommendation :=
  recommendations_loop student_id student_topic_error_df max_recommendations
    (sub_scores_for student_id weaknesses student_topic_scores_df) []

/-- The fixed "Mantieni il ritmo" recommendation of the empty-weaknesses branch. -/
def maintainPaceRecommendation : Recommendation :=
  { title := "Mantieni il ritmo"
    why := "Non emergono lacune marcate: continua con esercizi di consolidamento."
    how := ["Esercizi misti 3 volte a settimana (mix di topic)",
            "Aggiungi 1 esercizio più difficile per topic per alzare il livello"]
    priority := 2 }

/-- `generate_recommendations`. -/
def generate_recommendations (student_id : String) (weaknesses : List String)
    (student_topic_error_df : List ErrorShareRow)
    (student_topic_scores_df : List TopicScore)
    (max_recommendations : ℕ := 5) : List Recommendation :=
  if weaknesses.isEmpty then [maintainPaceRecommendation]
  else
    List.insertionSort recPrioLE
      (recs_in_severity_order student_id weaknesses student_topic_error_df
        student_topic_scores_df max_recommendations)

/-! ## Helper lemmas -/

/-- Summing `x / c` over a list is the sum divided by `c`. -/
theorem list_sum_map_div (l : List ℚ) (c : ℚ) :
    (l.map (fun x => x / c)).sum = l.sum / c := by
  induction l with
  | nil => simp
  | cons x t ih => simp [ih, add_div]

/-- A list of naturals with a positive member has a positive sum. -/
theorem list_sum_pos_of_mem {l : List ℕ} {x : ℕ} (hx : x ∈ l) (hpos : 0 < x) :
    0 < l.sum := by
  induction l with
  | nil => cases hx
  | cons y t ih =>
    rcases List.mem_cons.mp hx with h | h
    · subst h; exact Nat.lt_of_lt_of_le hpos (Nat.le_add_right _ _)
    · exact Nat.lt_of_lt_of_le (ih h)
        (by simp [List.sum_cons, Nat.le_add_left t.sum y])

/-- Partition of a list's length along a duplicate-free key list covering every
element's key: the group sizes sum to the list's size. -/
theorem sum_map_length_filter_eq {α κ : Type} [BEq κ] [LawfulBEq κ] (f : α → κ) :
    ∀ (keys : List κ) (m : List α), keys.Nodup → (∀ a ∈ m, f a ∈ keys) →
      (keys.map (fun k => (m.filter (fun a => f a == k)).length)).sum = m.length := by
  intro keys
  induction keys with
  | nil =>
    intro m _ hcov
    cases m with
    | nil => simp
    | cons b t => exact absurd (hcov b (List.mem_cons_self b t)) (List.not_mem_nil _)
  | cons k ks ih =>
    intro m hnd hcov
    have hknotin : k ∉ ks := (List.nodup_cons.mp hnd).1
    have hndks : ks.Nodup := (List.nodup_cons.mp hnd).2
    have hterm : ∀ k' ∈ ks,
        (m.filter (fun a => f a == k')).length
          = ((m.filter (fun a => !(f a == k))).filter (fun a => f a == k')).length := by
      intro k' hk'
      have heq : (m.filter (fun a => !(f a == k))).filter (fun a => f a == k')
          = m.filter (fun a => f a == k') := by
        rw [List.filter_filter]
        apply List.filter_congr
        intro a _
        by_cases hfa : f a == k'
        · have : ¬ (f a == k) = true := by
            rw [beq_iff_eq] at hfa ⊢
            rw [hfa]
            intro hkk
            exact hknotin (hkk ▸ hk')
          simp [hfa, this]
        · simp [hfa]
      rw [heq]
    have hcov2 : ∀ a ∈ m.filter (fun a => !(f a == k)), f a ∈ ks := by
      intro a ha
      have hmem := List.mem_filter.mp ha
      have : f a ≠ k := by
        intro h
        have := hmem.2
        rw [h] at this
        simp at this
      rcases List.mem_cons.mp (hcov a hmem.1) with h | h
      · exact absurd h this
      · exact h
    have ihm := ih (m.filter (fun a => !(f a == k))) hndks hcov2
    calc ((k :: ks).map (fun k => (m.filter (fun a => f a == k)).length)).sum
        = (m.filter (fun a => f a == k)).length
          + (ks.map (fun k' => (m.filter (fun a => f a == k')).length)).sum := by
          simp
      _ = (m.filter (fun a => f a == k)).length
          + (ks.map (fun k' =>
              ((m.filter (fun a => !(f a == k))).filter (fun a => f a == k')).length)).sum := by
          rw [List.map_congr_left hterm]
      _ = (m.filter (fun a => f a == k)).length
          + (m.filter (fun a => !(f a == k))).length := by rw [ihm]
      _ = m.length := (List.length_eq_length_filter_add (fun a => f a == k)).symm

/-- Filtering one priority class out of an `orderedInsert` by priority: the
inserted element lands in front of its class (everything it skips has strictly
smaller priority). -/
theorem filter_orderedInsert_prio (p : ℕ) (a : Recommendation) :
    ∀ m : List Recommendation,
      (List.orderedInsert recPrioLE a m).filter (fun x => x.priority == p)
        = if a.priority = p then a :: m.filter (fun x => x.priority == p)
          else m.filter (fun x => x.priority == p) := by
  intro m
  induction m with
  | nil =>
    by_cases h : a.priority = p <;> simp [List.orderedInsert, h]
  | cons b t ih =>
    by_cases hr : recPrioLE a b
    · rw [List.orderedInsert_of_le recPrioLE t hr]
      by_cases h : a.priority = p <;> simp [h, List.filter_cons]
    · have hstep : List.orderedInsert recPrioLE a (b :: t)
          = b :: List.orderedInsert recPrioLE a t := by
        simp [List.orderedInsert, hr]
      rw [hstep]
      by_cases h : a.priority = p
      · have hbp : ¬ (b.priority = p) := by
          intro hb
          apply hr
          unfold recPrioLE
          omega
        simp [List.filter_cons, h, hbp, ih]
      · by_cases hb : b.priority = p <;> simp [List.filter_cons, h, hb, ih]

/-- The final priority sort of `generate_recommendations` is stable: filtering
the sorted list to one priority value gives exactly the unsorted list filtered
to that value, in its original order. -/
theorem filter_insertionSort_prio (p : ℕ) (l : List Recommendation) :
    (List.insertionSort recPrioLE l).filter (fun x => x.priority == p)
      = l.filter (fun x => x.priority == p) := by
  induction l with
  | nil => rfl
  | cons b t ih =>
    rw [List.insertionSort, filter_orderedInsert_prio]
    by_cases h : b.priority = p <;> simp [List.filter_cons, h, ih]

/-- A `(student, topic)` group is the topic restriction of the student group. -/
theorem groupST_eq_filter (sid t : String) (rows : List Attempt) :
    groupST sid t rows = (groupS sid rows).filter (fun a => a.topic == t) := by
  simp only [groupST, groupS, List.filter_filter]
  apply List.filter_congr
  intro a _
  by_cases h1 : a.student_id == sid <;> by_cases h2 : a.topic == t <;> simp [h1, h2]

/-- Every row's `(student, topic)` key appears among the groupby keys. -/
theorem mem_stKeys_of_mem {a : Attempt} {rows : List Attempt} (ha : a ∈ rows) :
    (a.student_id, a.topic) ∈ stKeys rows := by
  simp only [stKeys, List.mem_dedup, List.mem_map]
  exact ⟨a, ha, rfl⟩

/-- Every row's `(student, topic, error_type)` key appears among the groupby keys. -/
theorem mem_steKeys_of_mem {a : Attempt} {rows : List Attempt} (ha : a ∈ rows) :
    (a.student_id, a.topic, a.error_type) ∈ steKeys rows := by
  simp only [steKeys, List.mem_dedup, List.mem_map]
  exact ⟨a, ha, rfl⟩

/-- A key taken from the groupby key list has a non-empty group. -/
theorem groupST_length_pos {k : String × String} {rows : List Attempt}
    (hk : k ∈ stKeys rows) : 0 < (groupST k.1 k.2 rows).length := by
  simp only [stKeys, List.mem_dedup, List.mem_map] at hk
  obtain ⟨a, ha, hak⟩ := hk
  have : a ∈ groupST k.1 k.2 rows := by
    simp only [groupST, List.mem_filter]
    refine ⟨ha, ?_⟩
    have h1 : a.student_id = k.1 := by rw [← hak]
    have h2 : a.topic = k.2 := by rw [← hak]
    simp [h1, h2]
  exact List.length_pos.mpr (List.ne_nil_of_mem this)

/-- A key taken from the triple groupby key list has a non-empty group. -/
theorem groupSTE_length_pos {k : String × String × String} {rows : List Attempt}
    (hk : k ∈ steKeys rows) : 0 < (groupSTE k.1 k.2.1 k.2.2 rows).length := by
  simp only [steKeys, List.mem_dedup, List.mem_map] at hk
  obtain ⟨a, ha, hak⟩ := hk
  have : a ∈ groupSTE k.1 k.2.1 k.2.2 rows := by
    simp only [groupSTE, List.mem_filter]
    refine ⟨ha, ?_⟩
    have h1 : a.student_id = k.1 := by rw [← hak]
    have h2 : a.topic = k.2.1 := by rw [← hak]
    have h3 : a.error_type = k.2.2 := by rw [← hak]
    simp [h1, h2, h3]
  exact List.length_pos.mpr (List.ne_nil_of_mem this)

/-! ## Claims -/

/-- **C3.** For every student_id and every error-share and topic-score table,
`generate_recommendations` called with an empty weaknesses list returns exactly
one recommendation, that recommendation has priority 2, and its `how` list is
non-empty. -/
theorem C3_empty_weaknesses_single_priority2_rec
    (student_id : String) (student_topic_error_df : List ErrorShareRow)
    (student_topic_scores_df : List TopicScore) (max_recommendations : ℕ) :
    ∃ r, generate_recommendations student_id [] student_topic_error_df
        student_topic_scores_df max_recommendations = [r]
      ∧ r.priority = 2 ∧ r.how ≠ [] :=
  ⟨maintainPaceRecommendation, rfl, rfl, by simp [maintainPaceRecommendation]⟩

/-- **C10.** If the weaknesses list is non-empty but no row of the topic-scores
table matches the given student_id with a topic in the weaknesses list,
`generate_recommendations` returns an empty list (the non-empty-output guarantee
only covers the empty-weaknesses input). -/
theorem C10_no_matching_weak_rows_empty_output
    (student_id : String) (weaknesses : List String)
    (student_topic_error_df : List ErrorShareRow)
    (student_topic_scores_df : List TopicScore) (max_recommendations : ℕ)
    (hw : weaknesses ≠ [])
    (hf : student_topic_scores_df.filter
        (fun r => r.student_id == student_id && weaknesses.contains r.topic) = []) :
    generate_recommendations student_id weaknesses student_topic_error_df
      student_topic_scores_df max_recommendations = [] := by
  have hwe : weaknesses.isEmpty = false := by
    cases weaknesses with
    | nil => exact absurd rfl hw
    | cons _ _ => rfl
  unfold generate_recommendations
  rw [hwe]
  unfold recs_in_severity_order sub_scores_for
  rw [hf]
  rfl

/-- **C10 witness**: a concrete non-empty weaknesses list with no matching
topic-score row yields no recommendation. -/
theorem C10_witness :
    generate_recommendations "s1" ["Algebra"] [] [] 5 = [] :=
  C10_no_matching_weak_rows_empty_output "s1" ["Algebra"] [] [] 5
    (List.cons_ne_nil _ _) rfl

/-- **C7.** `_label_topic` returns `"strength"` when accuracy is at least the
configured strength threshold (0.80), `"weakness"` when accuracy is at most the
configured weakness threshold (0.55), `"neutral"` strictly between them, and —
the strength threshold being above the weakness threshold — the two conditions
are never simultaneously true. -/
theorem C7_label_topic_thresholds (acc : ℚ) :
    (STRENGTH_ACCURACY_THRESHOLD ≤ acc → label_topic acc = "strength")
    ∧ (acc ≤ WEAKNESS_ACCURACY_THRESHOLD → label_topic acc = "weakness")
    ∧ (WEAKNESS_ACCURACY_THRESHOLD < acc → acc < STRENGTH_ACCURACY_THRESHOLD →
        label_topic acc = "neutral")
    ∧ ¬ (STRENGTH_ACCURACY_THRESHOLD ≤ acc ∧ acc ≤ WEAKNESS_ACCURACY_THRESHOLD) := by
  unfold label_topic STRENGTH_ACCURACY_THRESHOLD WEAKNESS_ACCURACY_THRESHOLD
  refine ⟨fun h => ?_, fun h => ?_, fun h1 h2 => ?_, fun h => ?_⟩
  · rw [if_pos h]
  · split_ifs with hs
    · linarith
    · rfl
  · split_ifs with hs hw
    · linarith
    · linarith
    · rfl
  · linarith [h.1, h.2]

/-- **C8.** `_accuracy_to_level` maps an accuracy in `[0, 1]` to the level of the
first configured half-open band containing it — with the default bands,
`"beginner"` on `[0, 0.50)`, `"intermediate"` on `[0.50, 0.75)`, `"advanced"` on
`[0.75, 1.01)`, so accuracy 1.0 maps to `"advanced"` — and when no band matches
it falls back to `"intermediate"` instead of failing. -/
theorem C8_level_band_lookup :
    (∀ acc : ℚ, 0 ≤ acc → acc ≤ 1 →
      accuracy_to_level acc =
        if acc < 50/100 then "beginner"
        else if acc < 75/100 then "intermediate"
        else "advanced")
    ∧ accuracy_to_level 1 = "advanced"
    ∧ (∀ (bands : List (String × ℚ × ℚ)) (acc : ℚ),
        (∀ b ∈ bands, ¬ (b.2.1 ≤ acc ∧ acc < b.2.2)) →
        accuracy_to_level_with bands acc = "intermediate") := by
  refine ⟨?_, ?_, ?_⟩
  · intro acc h0 h1
    unfold accuracy_to_level LEVEL_BANDS
    simp only [accuracy_to_level_with]
    by_cases hb : acc < 50/100
    · rw [if_pos ⟨h0, hb⟩, if_pos hb]
    · rw [if_neg (fun hcon => absurd hcon.2 hb), if_neg hb]
      by_cases hi : acc < 75/100
      · rw [if_pos ⟨le_of_not_lt hb, hi⟩, if_pos hi]
      · rw [if_neg (fun hcon => absurd hcon.2 hi),
            if_pos ⟨le_of_not_lt hi, by linarith⟩, if_neg hi]
  · with_unfolding_all decide
  · intro bands
    induction bands with
    | nil => intro acc _; rfl
    | cons b rest ih =>
      intro acc hb
      obtain ⟨level, lo, hi⟩ := b
      simp only [accuracy_to_level_with]
      rw [if_neg (hb (level, lo, hi) (List.mem_cons_self _ _))]
      exact ih acc (fun b' hb' => hb b' (List.mem_cons_of_mem _ hb'))

/-- **C5.** `build_student_profile` fails with the not-found error if and only if
the requested student_id has no row in the overall-summary table or no row in the
topic-scores table; on failure the `Except` carries no profile, so no partial
profile is ever returned. -/
theorem C5_build_profile_not_found_iff
    (student_id : String) (student_topic_scores_df : List TopicScore)
    (student_overall_df : List OverallRow) :
    (∃ msg, build_student_profile student_id student_topic_scores_df student_overall_df
        = Except.error msg)
    ↔ (student_overall_df.filter (fun r => r.student_id == student_id) = []
        ∨ student_topic_scores_df.filter (fun r => r.student_id == student_id) = []) := by
  unfold build_student_profile
  cases ho : student_overall_df.filter (fun r => r.student_id == student_id) with
  | nil => simp
  | cons row orest =>
    cases ht : student_topic_scores_df.filter (fun r => r.student_id == student_id) with
    | nil => simp
    | cons t0 trest => simp

/-- **C5 witness**: with both tables empty the profile build fails, and with
matching rows present it does not. -/
theorem C5_witness :
    ((∃ msg, build_student_profile "s1" [] [] = Except.error msg)
      ↔ (([] : List OverallRow).filter (fun r => r.student_id == "s1") = []
          ∨ ([] : List TopicScore).filter (fun r => r.student_id == "s1") = [])) ∧
    (∃ msg, build_student_profile "s1" [] [] = Except.error msg) :=
  ⟨C5_build_profile_not_found_iff "s1" [] [],
   (C5_build_profile_not_found_iff "s1" [] []).mpr (Or.inl rfl)⟩

/-- **C6.** Whenever a required attempt field is absent from the input table, the
pipeline fails with the schema error raised by `load_raw_answers`, and the
failure happens before any aggregation runs: `run_scoring_pipeline` propagates
exactly the load error and produces none of the three aggregated tables. -/
theorem C6_missing_column_schema_error
    (t : RawAnswersTable) (c : String)
    (hreq : c ∈ REQUIRED_ANSWER_COLUMNS) (habs : c ∉ t.columns) :
    ∃ msg, load_raw_answers t = Except.error msg
      ∧ run_scoring_pipeline t = Except.error msg := by
  have hcontains : t.columns.contains c = false := by
    rw [← Bool.not_eq_true]
    intro hcon
    exact habs (List.elem_iff.mp hcon)
  have hmem : c ∈ REQUIRED_ANSWER_COLUMNS.filter (fun c => !(t.columns.contains c)) := by
    rw [List.mem_filter]
    exact ⟨hreq, by rw [hcontains]; rfl⟩
  have hie : (REQUIRED_ANSWER_COLUMNS.filter (fun c => !(t.columns.contains c))).isEmpty
      = false := by
    rw [List.isEmpty_eq_false]
    exact List.ne_nil_of_mem hmem
  have hload : load_raw_answers t = Except.error
      ("student_answers.csv manca colonne: "
        ++ toString (REQUIRED_ANSWER_COLUMNS.filter (fun c => !(t.columns.contains c)))) := by
    unfold load_raw_answers
    simp only [hie, Bool.false_eq_true, if_false]
  refine ⟨_, hload, ?_⟩
  unfold run_scoring_pipeline
  rw [hload]
  rfl

/-- **C6 witness**: a table whose header lacks `test_id` (among others) is
rejected by the load step and the pipeline returns that very error. -/
theorem C6_witness :
    ∃ msg, load_raw_answers ⟨["student_id"], []⟩ = Except.error msg
      ∧ run_scoring_pipeline ⟨["student_id"], []⟩ = Except.error msg :=
  C6_missing_column_schema_error ⟨["student_id"], []⟩ "test_id"
    (by decide) (by decide)

/-- **C4.** The list returned by `generate_recommendations` is sorted ascending
by priority; the weak topics feeding it are processed in ascending-accuracy
(most severe first) order (`sub_scores_for` is sorted that way); and the final
priority sort is stable: within each priority class the output preserves the
severity order of `recs_in_severity_order` exactly. -/
theorem C4_recommendations_sorted_stable
    (student_id : String) (weaknesses : List String)
    (student_topic_error_df : List ErrorShareRow)
    (student_topic_scores_df : List TopicScore) (max_recommendations : ℕ) :
    (generate_recommendations student_id weaknesses student_topic_error_df
        student_topic_scores_df max_recommendations).Pairwise
      (fun a b => a.priority ≤ b.priority)
    ∧ (sub_scores_for student_id weaknesses student_topic_scores_df).Pairwise
      (fun a b => a.topic_accuracy ≤ b.topic_accuracy)
    ∧ (weaknesses.isEmpty = false →
        ∀ p, (generate_recommendations student_id weaknesses student_topic_error_df
            student_topic_scores_df max_recommendations).filter (fun x => x.priority == p)
          = (recs_in_severity_order student_id weaknesses student_topic_error_df
              student_topic_scores_df max_recommendations).filter
                (fun x => x.priority == p)) := by
  refine ⟨?_, ?_, ?_⟩
  · unfold generate_recommendations
    by_cases hw : weaknesses.isEmpty = true
    · rw [if_pos hw]
      exact List.pairwise_singleton _ _
    · rw [if_neg hw]
      exact List.sorted_insertionSort recPrioLE _
  · exact List.sorted_insertionSort tsAccLE _
  · intro hw p
    unfold generate_recommendations
    rw [hw]
    simp only [Bool.false_eq_true, if_false]
    exact filter_insertionSort_prio p _

/-- **C9.** In every successfully built `StudentProfile` the weaknesses list is
sorted ascending by accuracy, and the strengths and neutrals lists are each
sorted descending by accuracy (every adjacent — indeed every ordered — pair
satisfies the relation). -/
theorem C9_profile_lists_sorted
    (student_id : String) (student_topic_scores_df : List TopicScore)
    (student_overall_df : List OverallRow) (prof : StudentProfile)
    (h : build_student_profile student_id student_topic_scores_df student_overall_df
        = Except.ok prof) :
    prof.weaknesses.Pairwise (fun a b => a.accuracy ≤ b.accuracy)
    ∧ prof.strengths.Pairwise (fun a b => b.accuracy ≤ a.accuracy)
    ∧ prof.neutrals.Pairwise (fun a b => b.accuracy ≤ a.accuracy) := by
  unfold build_student_profile at h
  cases ho : student_overall_df.filter (fun r => r.student_id == student_id) with
  | nil =>
    rw [ho] at h
    simp at h
  | cons row orest =>
    rw [ho] at h
    cases ht : student_topic_scores_df.filter (fun r => r.student_id == student_id) with
    | nil =>
      rw [ht] at h
      simp at h
    | cons t0 trest =>
      rw [ht] at h
      simp only [Except.ok.injEq] at h
      refine ⟨?_, ?_, ?_⟩ <;> rw [← h]
      · exact List.sorted_insertionSort tpAccLE _
      · exact List.sorted_insertionSort tpAccGE _
      · exact List.sorted_insertionSort tpAccGE _

/-- Topic-score rows used by the C9 witness: one clear weakness, one clear
strength for student `"s1"`. -/
def C9_example_scores : List TopicScore :=
  [{ student_id := "s1", topic := "A", topic_n_questions := 3, topic_accuracy := 0,
     topic_avg_time_seconds := 20, topic_avg_confidence := 3 },
   { student_id := "s1", topic := "B", topic_n_questions := 1, topic_accuracy := 1,
     topic_avg_time_seconds := 40, topic_avg_confidence := 3 }]

/-- Overall-summary row used by the C9 witness. -/
def C9_example_overall : List OverallRow :=
  [{ student_id := "s1", overall_n_questions := 4, overall_accuracy := 1,
     overall_avg_time_seconds := 25, overall_avg_confidence := 3 }]

/-- The profile `build_student_profile` yields on the C9 witness tables. -/
def C9_example_profile : StudentProfile :=
  { student_id := "s1"
    overall_accuracy := 1
    overall_avg_time_seconds := 25
    overall_n_questions := 4
    overall_level := "advanced"
    strengths := [{ topic := "B", accuracy := 1, avg_time_seconds := 40,
                    n_questions := 1, level := "advanced", label := "strength" }]
    weaknesses := [{ topic := "A", accuracy := 0, avg_time_seconds := 20,
                     n_questions := 3, level := "beginner", label := "weakness" }]
    neutrals := [] }

/-- **C9 witness**: the sortedness facts at a concrete successfully built profile. -/
theorem C9_witness :
    C9_example_profile.weaknesses.Pairwise (fun a b => a.accuracy ≤ b.accuracy)
    ∧ C9_example_profile.strengths.Pairwise (fun a b => b.accuracy ≤ a.accuracy)
    ∧ C9_example_profile.neutrals.Pairwise (fun a b => b.accuracy ≤ a.accuracy) :=
  C9_profile_lists_sorted "s1" C9_example_scores C9_example_overall
    C9_example_profile (by with_unfolding_all rfl)

/-- Filtering twice commutes. -/
theorem filter_comm_bool {α : Type} (p q : α → Bool) (l : List α) :
    (l.filter q).filter p = (l.filter p).filter q := by
  rw [List.filter_filter, List.filter_filter]
  exact List.filter_congr (fun a _ => Bool.and_comm _ _)

/-- An attempt row with the aggregation-relevant fields set explicitly and the
remaining fields fixed at plain values. -/
def mkAttempt (sid t q : String) (ok : Bool) (err : String) (time : ℚ) : Attempt :=
  { student_id := sid, test_id := "t1", question_id := q, topic := t, subskill := "s",
    difficulty := 2, correct_answer := 1, answer_given := 1, is_correct := ok,
    error_type := err, time_seconds := time, confidence := 3 }

/-- The sum of the `error_share` values an error-share table holds for one
`(student_id, topic)` pair. -/
def sumSharesFor (sid t : String) (tbl : List ErrorShareRow) : ℚ :=
  ((tbl.filter (fun r => r.student_id == sid && r.topic == t)).map
    (fun r => r.error_share)).sum

/-- Three attempts of one student in one topic spread over three error
categories: each rounded share is 0.3333, so the returned shares sum to 0.9999. -/
def C1_example_rows : List Attempt :=
  [mkAttempt "s1" "A" "q1" true "none" 10,
   mkAttempt "s1" "A" "q2" false "segno" 20,
   mkAttempt "s1" "A" "q3" false "algebra" 30]

/-- **C1 counterexample**: for the pair `("s1", "A")` of `C1_example_rows` the
`share` values returned by `compute_student_topic_error_shares` sum to 0.9999,
which is not within 1e-6 of 1.0 — the claim fails on the rounded shares the
function returns. -/
theorem C1_counterexample :
    ¬ (|sumSharesFor "s1" "A" (compute_student_topic_error_shares C1_example_rows) - 1|
        ≤ 1/1000000) := by
  with_unfolding_all decide

/-- **C1 (amended).** For every attempt table and every `(student_id, topic)`
pair present in it, the shares `compute_student_topic_error_shares` computes for
that pair *before the final 4-decimal rounding* — `n / total_n` over the pair's
error-type groups — sum to exactly 1.0 (hence within any tolerance); the rounded
shares actually returned need only sum to 1.0 within the rounding resolution. -/
theorem C1_raw_shares_sum_to_one
    (rows : List Attempt) (sid t : String) (a : Attempt)
    (ha : a ∈ rows) (hsid : a.student_id = sid) (ht : a.topic = t) :
    (((steKeys rows).filter (fun k => k.1 == sid && k.2.1 == t)).map
      (fun k => ((groupSTE k.1 k.2.1 k.2.2 rows).length : ℚ)
        / (totalForPair rows sid t : ℚ))).sum = 1 := by
  have hkey : (sid, t, a.error_type) ∈ steKeys rows := by
    have := mem_steKeys_of_mem ha
    rwa [hsid, ht] at this
  have hkmem : (sid, t, a.error_type)
      ∈ (steKeys rows).filter (fun k => k.1 == sid && k.2.1 == t) := by
    rw [List.mem_filter]
    exact ⟨hkey, by simp⟩
  have hglen : 0 < (groupSTE sid t a.error_type rows).length :=
    groupSTE_length_pos (k := (sid, t, a.error_type)) hkey
  have hTpos : 0 < totalForPair rows sid t := by
    unfold totalForPair
    exact list_sum_pos_of_mem (List.mem_map_of_mem _ hkmem) hglen
  have hTne : ((totalForPair rows sid t : ℚ)) ≠ 0 :=
    Nat.cast_ne_zero.mpr (by omega)
  have hmap : (((steKeys rows).filter (fun k => k.1 == sid && k.2.1 == t)).map
        (fun k => ((groupSTE k.1 k.2.1 k.2.2 rows).length : ℚ)
          / (totalForPair rows sid t : ℚ)))
      = (((steKeys rows).filter (fun k => k.1 == sid && k.2.1 == t)).map
          (fun k => ((groupSTE k.1 k.2.1 k.2.2 rows).length : ℚ))).map
            (fun x => x / (totalForPair rows sid t : ℚ)) := by
    rw [List.map_map]
    rfl
  rw [hmap, list_sum_map_div]
  have hnum : ((((steKeys rows).filter (fun k => k.1 == sid && k.2.1 == t)).map
        (fun k => ((groupSTE k.1 k.2.1 k.2.2 rows).length : ℚ))).sum)
      = ((totalForPair rows sid t : ℕ) : ℚ) := by
    unfold totalForPair
    rw [Nat.cast_list_sum, List.map_map]
    rfl
  rw [hnum, div_self hTne]

/-- **C1 witness**: the unrounded shares of the pair `("s1", "A")` of
`C1_example_rows` (three thirds) sum to exactly 1. -/
theorem C1_witness :
    (((steKeys C1_example_rows).filter (fun k => k.1 == "s1" && k.2.1 == "A")).map
      (fun k => ((groupSTE k.1 k.2.1 k.2.2 C1_example_rows).length : ℚ)
        / (totalForPair C1_example_rows "s1" "A" : ℚ))).sum = 1 :=
  C1_raw_shares_sum_to_one C1_example_rows "s1" "A"
    (mkAttempt "s1" "A" "q1" true "none" 10)
    (List.mem_cons_self _ _) rfl rfl

/-- The topics of one student's rows: the topic-score table's groupby keys
restricted to that student. -/
def studentTopics (sid : String) (rows : List Attempt) : List String :=
  ((stKeys rows).filter (fun k => k.1 == sid)).map (fun k => k.2)

/-- The `overall_accuracy` the summary table holds for a student (0 when the
student is absent). -/
def overall_accuracy_of (sid : String) (tbl : List OverallRow) : ℚ :=
  ((tbl.find? (fun r => r.student_id == sid)).map (fun r => r.overall_accuracy)).getD 0

/-- The count-weighted mean (weights `topic_n_questions`) of a student's
`topic_accuracy` values in a topic-score table — the quantity C2 compares the
overall accuracy against. -/
def weighted_topic_accuracy (sid : String) (tbl : List TopicScore) : ℚ :=
  let sub := tbl.filter (fun r => r.student_id == sid)
  ((sub.map (fun r => (r.topic_n_questions : ℚ) * r.topic_accuracy)).sum)
    / ((sub.map (fun r => (r.topic_n_questions : ℚ))).sum)

/-- Casting a sum of naturals to `ℚ` distributes over the mapped list. -/
theorem nat_cast_map_sum {α : Type} (f : α → ℕ) (l : List α) :
    (l.map (fun x => ((f x : ℕ) : ℚ))).sum = (((l.map f).sum : ℕ) : ℚ) := by
  induction l with
  | nil => simp
  | cons x t ih => simp [ih]

/-- One student, topic "A" with 1 of 3 correct (rounded accuracy 0.3333) and
topic "B" with 1 of 1 correct: the rounded per-topic accuracies no longer
reconcile exactly with the rounded overall accuracy. -/
def C2_example_rows : List Attempt :=
  [mkAttempt "s1" "A" "q1" true "none" 10,
   mkAttempt "s1" "A" "q2" false "algebra" 20,
   mkAttempt "s1" "A" "q3" false "algebra" 30,
   mkAttempt "s1" "B" "q4" true "none" 40]

/-- **C2 counterexample**: on `C2_example_rows` the summary's accuracy for
`"s1"` is 0.5, while the count-weighted mean of the returned (rounded) topic
accuracies is (3·0.3333 + 1·1)/4 = 0.499975 — the two returned values are not
equal, so the reconciliation identity fails on the tables as returned. -/
theorem C2_counterexample :
    overall_accuracy_of "s1" (compute_student_overall_summary C2_example_rows)
      ≠ weighted_topic_accuracy "s1" (compute_student_topic_scores C2_example_rows) := by
  with_unfolding_all decide

/-- **C2 (amended).** For every attempt table and every student present in it,
the reconciliation holds exactly on the quantities *before* display rounding:
the student's raw overall accuracy (`mean(is_correct)` over the student's rows,
the value `compute_student_overall_summary` rounds to 4 decimals) equals the
count-weighted mean — weighted by the exact per-topic question counts — of the
student's raw per-topic accuracies (the values `compute_student_topic_scores`
rounds to 4 decimals).  On the returned rounded values the identity holds only
up to the rounding resolution. -/
theorem C2_raw_overall_eq_weighted_mean
    (rows : List Attempt) (sid : String) (a : Attempt)
    (_ha : a ∈ rows) (_hsid : a.student_id = sid) :
    rawAccuracy (groupS sid rows)
      = ((studentTopics sid rows).map (fun t =>
            ((groupST sid t rows).length : ℚ) * rawAccuracy (groupST sid t rows))).sum
        / ((studentTopics sid rows).map (fun t => ((groupST sid t rows).length : ℚ))).sum := by
  have hnodup : (studentTopics sid rows).Nodup := by
    unfold studentTopics
    apply List.Nodup.map_on
    · intro x hx y hy hxy
      have hx' := List.mem_filter.mp hx
      have hy' := List.mem_filter.mp hy
      have hx1 : x.1 = sid := by simpa using hx'.2
      have hy1 : y.1 = sid := by simpa using hy'.2
      exact Prod.ext (hx1.trans hy1.symm) hxy
    · exact (List.nodup_dedup _).filter _
  have hcov : ∀ b ∈ groupS sid rows, b.topic ∈ studentTopics sid rows := by
    intro b hb
    have hb' := List.mem_filter.mp hb
    have hbid : b.student_id = sid := by simpa using hb'.2
    have hk : (sid, b.topic) ∈ (stKeys rows).filter (fun k => k.1 == sid) := by
      rw [List.mem_filter]
      refine ⟨?_, by simp⟩
      have := mem_stKeys_of_mem hb'.1
      rwa [hbid] at this
    exact List.mem_map_of_mem _ hk
  have hpos : ∀ t ∈ studentTopics sid rows, 0 < (groupST sid t rows).length := by
    intro t htk
    unfold studentTopics at htk
    obtain ⟨k, hkf, hk2⟩ := List.mem_map.mp htk
    have hk' := List.mem_filter.mp hkf
    have hk1 : k.1 = sid := by simpa using hk'.2
    have hlen := groupST_length_pos hk'.1
    rwa [hk1, hk2] at hlen
  have hden : ((studentTopics sid rows).map
        (fun t => ((groupST sid t rows).length : ℚ))).sum
      = ((groupS sid rows).length : ℚ) := by
    have hcong : ∀ t ∈ studentTopics sid rows,
        ((groupST sid t rows).length)
          = (((groupS sid rows).filter (fun b => b.topic == t)).length) := by
      intro t _
      rw [groupST_eq_filter]
    have h1 : ((studentTopics sid rows).map (fun t => (groupST sid t rows).length)).sum
        = (groupS sid rows).length := by
      rw [List.map_congr_left hcong]
      exact sum_map_length_filter_eq (fun b => b.topic) (studentTopics sid rows)
        (groupS sid rows) hnodup hcov
    rw [nat_cast_map_sum (fun t => (groupST sid t rows).length), h1]
  have hnum : ((studentTopics sid rows).map (fun t =>
        ((groupST sid t rows).length : ℚ) * rawAccuracy (groupST sid t rows))).sum
      = (((groupS sid rows).countP (fun b => b.is_correct)) : ℚ) := by
    have hstep : ∀ t ∈ studentTopics sid rows,
        ((groupST sid t rows).length : ℚ) * rawAccuracy (groupST sid t rows)
          = (((((groupS sid rows).filter (fun b => b.is_correct)).filter
              (fun b => b.topic == t)).length : ℕ) : ℚ) := by
      intro t htk
      have hne : ((groupST sid t rows).length : ℚ) ≠ 0 :=
        Nat.cast_ne_zero.mpr (by have := hpos t htk; omega)
      unfold rawAccuracy
      rw [mul_comm, div_mul_cancel₀ _ hne]
      have hc : (groupST sid t rows).countP (fun b => b.is_correct)
          = (((groupS sid rows).filter (fun b => b.is_correct)).filter
              (fun b => b.topic == t)).length := by
        rw [groupST_eq_filter, List.countP_eq_length_filter, filter_comm_bool]
      exact_mod_cast hc
    have hcov2 : ∀ b ∈ (groupS sid rows).filter (fun b => b.is_correct),
        b.topic ∈ studentTopics sid rows :=
      fun b hb => hcov b (List.mem_of_mem_filter hb)
    rw [List.map_congr_left hstep,
      nat_cast_map_sum (fun t => (((groupS sid rows).filter
        (fun b => b.is_correct)).filter (fun b => b.topic == t)).length),
      sum_map_length_filter_eq (fun b => b.topic) (studentTopics sid rows)
        ((groupS sid rows).filter (fun b => b.is_correct)) hnodup hcov2,
      List.countP_eq_length_filter]
  rw [hnum, hden]
  unfold rawAccuracy
  rfl

/-- **C2 witness**: the raw reconciliation identity at the concrete table
`C2_example_rows` for student `"s1"`. -/
theorem C2_witness :
    rawAccuracy (groupS "s1" C2_example_rows)
      = ((studentTopics "s1" C2_example_rows).map (fun t =>
            ((groupST "s1" t C2_example_rows).length : ℚ)
              * rawAccuracy (groupST "s1" t C2_example_rows))).sum
        / ((studentTopics "s1" C2_example_rows).map
            (fun t => ((groupST "s1" t C2_example_rows).length : ℚ))).sum :=
  C2_raw_overall_eq_weighted_mean C2_example_rows "s1"
    (mkAttempt "s1" "A" "q1" true "none" 10) (List.mem_cons_self _ _) rfl
